import Mathlib

/-
Verification of the decorator_include module (a replacement for
django.conf.urls.include that applies view decorators to every view in an
included urlconf) against its natural-language specification.

The embedding is a shallow one.  View callbacks are values of an arbitrary
type V and view decorators are functions V → V, so that decorator
application is ordinary function application.  URL pattern nodes
(RegexURLPattern / RegexURLResolver), modules, plain pattern lists and
DecoratedPatterns wrapper instances form a mutual inductive family
mirroring the Python object graph.  Python's mutation of the memoized
module cache is modelled by explicit state passing (functions return the
updated wrapper), and Python object identity of freshly constructed
wrapper instances is modelled by threading an allocation counter: every
DecoratedPatterns construction receives the current counter value as its
object id and increments it.  Fallible operations return Except.
-/

set_option autoImplicit false

namespace DecInc

variable {V : Type}

mutual

/-- A URL pattern node of the host framework: either a leaf
`RegexURLPattern` (regex source, view callback, default arguments, name)
or a `RegexURLResolver` (regex source, nested urlconf reference, default
kwargs, app_name, namespace). -/
inductive Pattern (V : Type) : Type where
  | leaf : String → V → List (String × String) → Option String → Pattern V
  | resolver : String → UrlconfRef V → List (String × String) → Option String →
      Option String → Pattern V

/-- A urlconf reference as the Python code sees it: either a string naming
an importable module, or an already-resolved (non-string) Python object. -/
inductive UrlconfRef (V : Type) : Type where
  | strRef : String → UrlconfRef V
  | obj : PyObj V → UrlconfRef V

/-- A non-string urlconf object: a real module (with an optional
`urlpatterns` attribute and further named attributes, attribute values
modelled as opaque strings), a plain list of patterns (modules are
sometimes just lists in Django urlconfs), or a DecoratedPatterns wrapper
instance. -/
inductive PyObj (V : Type) : Type where
  | mod : Option (List (Pattern V)) → List (String × String) → PyObj V
  | plist : List (Pattern V) → PyObj V
  | wrapper : DecoratedPatterns V → PyObj V

/-- A `DecoratedPatterns` instance.  Fields, in order: the object id
(allocation counter value at construction time, modelling Python object
identity), `urlconf_name`, the normalized `decorators` list, and the
memoized `_urlconf_module` cache (`none` models Python `None`). -/
inductive DecoratedPatterns (V : Type) : Type where
  | mk : Nat → UrlconfRef V → List (V → V) → Option (PyObj V) → DecoratedPatterns V

end

/-- Object id of a wrapper instance (models Python object identity). -/
def DecoratedPatterns.oid : DecoratedPatterns V → Nat
  | .mk i _ _ _ => i

/-- The stored `urlconf_name` field of a wrapper. -/
def DecoratedPatterns.urlconf_name : DecoratedPatterns V → UrlconfRef V
  | .mk _ u _ _ => u

/-- The stored (already normalized) `decorators` field of a wrapper. -/
def DecoratedPatterns.decorators : DecoratedPatterns V → List (V → V)
  | .mk _ _ ds _ => ds

/-- The `_urlconf_module` memoization field of a wrapper. -/
def DecoratedPatterns.cache : DecoratedPatterns V → Option (PyObj V)
  | .mk _ _ _ m => m

/-- Errors that can escape the wrapper's lazy operations: a failed
dynamic import, a TypeError (import_module on a non-string, or iterating
a non-iterable module), and an AttributeError from attribute lookup. -/
inductive PyErr : Type where
  | importError : PyErr
  | typeError : PyErr
  | attributeError : PyErr
  deriving DecidableEq

/-- Errors raised by decorator_include itself.  In Python the first two
are both ValueError (the explicit raise and the tuple-unpacking failure,
distinguished there only by message) and the third is
ImproperlyConfigured; we keep them as separate constructors.  The
valueErrorUnpack payload records the length of the offending tuple. -/
inductive IncludeError : Type where
  | valueErrorMustNamespace : IncludeError
  | valueErrorUnpack : Nat → IncludeError
  | improperlyConfigured : IncludeError
  deriving DecidableEq

/-- The import environment: what `import_module` returns for each module
path, `none` modelling an ImportError.  A successful import always yields
a real module: its optional `urlpatterns` attribute and its remaining
attributes. -/
abbrev ImportEnv (V : Type) :=
  String → Option (Option (List (Pattern V)) × List (String × String))

/-- Truthiness of an optional string, as Python evaluates `if x:` for a
value that is None or a str: None and the empty string are falsy. -/
def pyTruthy : Option String → Bool
  | none => false
  | some s => s ≠ ""

/-- Python `a or b` on optional strings: `a` if truthy, else `b` verbatim. -/
def pyOr (a b : Option String) : Option String :=
  if pyTruthy a then a else b

/-- The decorators argument as passed by the caller: either a single
(non-iterable) decorator or an iterable of decorators. -/
inductive DecoratorsArg (V : Type) : Type where
  | single : (V → V) → DecoratorsArg V
  | iterable : List (V → V) → DecoratorsArg V

/-- Normalization performed by `DecoratedPatterns.__init__`: a
non-iterable decorators argument becomes the singleton list. -/
def normalizeDecorators : DecoratorsArg V → List (V → V)
  | .single d => [d]
  | .iterable ds => ds

/-- Initial `_urlconf_module` cache: a non-string urlconf reference is
stored as the resolved object immediately, a string leaves the cache
empty (resolution deferred). -/
def cacheInit : UrlconfRef V → Option (PyObj V)
  | .strRef _ => none
  | .obj o => some o

/-- `DecoratedPatterns.__init__`: construct a wrapper (with a fresh object
id drawn from the allocation counter), normalize the decorators and
pre-fill the module cache for non-string references.  Total: construction
never raises. -/
def DecoratedPatterns.init (c : Nat) (u : UrlconfRef V) (d : DecoratorsArg V) :
    DecoratedPatterns V × Nat :=
  (.mk c u (normalizeDecorators d) (cacheInit u), c + 1)

/-- `DecoratedPatterns.decorate_pattern`.  A resolver node is rebuilt
around a freshly constructed wrapper over its nested urlconf reference
with the same decorator list (the nested subtree is not touched).  A leaf
node is rebuilt with the same regex, default args and name, its callback
replaced by the decorators applied in reversed list order. -/
def DecoratedPatterns.decorate_pattern :
    DecoratedPatterns V → Nat → Pattern V → Pattern V × Nat
  | .mk _ _ ds _, c, .resolver regex u kw an nsv =>
      let nw := DecoratedPatterns.init c u (.iterable ds)
      (.resolver regex (.obj (.wrapper nw.1)) kw an nsv, nw.2)
  | .mk _ _ ds _, c, .leaf regex cb args nm =>
      (.leaf regex (ds.reverse.foldl (fun acc d => d acc) cb) args nm, c)

/-- The list comprehension in `_get_urlpatterns`: map `decorate_pattern`
over the source patterns in order, threading the allocation counter. -/
def decorateList (w : DecoratedPatterns V) :
    List (Pattern V) → Nat → List (Pattern V) × Nat
  | [], c => ([], c)
  | p :: ps, c =>
      let pc := w.decorate_pattern c p
      let rest := decorateList w ps pc.2
      (pc.1 :: rest.1, rest.2)

/-- The `urlconf_module` property (`_get_urlconf_module`): return the
memoized module if present; otherwise import the string reference,
memoize and return it (an import failure propagates).  `import_module` on
a non-string raises a TypeError (unreachable through `__init__`, which
pre-fills the cache for non-strings). -/
def DecoratedPatterns.resolveModule (env : ImportEnv V) :
    DecoratedPatterns V → Except PyErr (PyObj V × DecoratedPatterns V)
  | .mk i u ds (some m) => .ok (m, .mk i u ds (some m))
  | .mk i u ds none =>
      match u with
      | .strRef s =>
          match env s with
          | some (ups, attrs) =>
              .ok (.mod ups attrs, .mk i u ds (some (.mod ups attrs)))
          | none => .error .importError
      | .obj _ => .error .typeError

/-- The `urlpatterns` property (`_get_urlpatterns`), re-run on every
access (the property is not cached).  Resolve the module (memoizing it; a
failed import propagates); read its `urlpatterns` attribute if present,
else treat the resolved object itself as the iterable of patterns (a real
module without `urlpatterns` is not iterable: TypeError); map
`decorate_pattern` over the elements in order.  When the resolved object
is itself a wrapper, reading its `urlpatterns` attribute re-enters this
property on the inner wrapper; the module resolution of
`resolveModule` is inlined into the case split here so that the
recursion is visibly structural.  Returns the produced list, the updated
wrapper (with module cache filled) and the new allocation counter. -/
def DecoratedPatterns.urlpatterns (env : ImportEnv V) :
    DecoratedPatterns V → Nat →
      Except PyErr (List (Pattern V) × DecoratedPatterns V × Nat)
  | .mk i u ds (some (.wrapper wi)), c =>
      match DecoratedPatterns.urlpatterns env wi c with
      | .error e => .error e
      | .ok (src, wi2, c2) =>
          let out := decorateList (.mk i u ds (some (.wrapper wi))) src c2
          .ok (out.1, .mk i u ds (some (.wrapper wi2)), out.2)
  | .mk i u ds (some (.mod (some src) attrs)), c =>
      let out := decorateList (.mk i u ds (some (.mod (some src) attrs))) src c
      .ok (out.1, .mk i u ds (some (.mod (some src) attrs)), out.2)
  | .mk _ _ _ (some (.mod none _)), _ => .error .typeError
  | .mk i u ds (some (.plist src)), c =>
      let out := decorateList (.mk i u ds (some (.plist src))) src c
      .ok (out.1, .mk i u ds (some (.plist src)), out.2)
  | .mk i u ds none, c =>
      match u with
      | .strRef s =>
          match env s with
          | some (some src, attrs) =>
              let out := decorateList (.mk i u ds (some (.mod (some src) attrs))) src c
              .ok (out.1, .mk i u ds (some (.mod (some src) attrs)), out.2)
          | some (none, _) => .error .typeError
          | none => .error .importError
      | .obj _ => .error .typeError

/-- Values an attribute lookup can produce: a pattern list, a resolved
urlconf object, the raw urlconf reference, the decorator list, the raw
memoization field, a bound method (named), or an ordinary module
attribute value (opaque string). -/
inductive AttrVal (V : Type) : Type where
  | patterns : List (Pattern V) → AttrVal V
  | objval : PyObj V → AttrVal V
  | confref : UrlconfRef V → AttrVal V
  | decs : List (V → V) → AttrVal V
  | cacheval : Option (PyObj V) → AttrVal V
  | method : String → AttrVal V
  | other : String → AttrVal V

/-- Attribute lookup on a resolved non-wrapper urlconf object (the target
of `getattr(self.urlconf_module, name)`).  On a real module,
`urlpatterns` answers from the dedicated field and any other name from
the attribute list; missing names raise AttributeError.  A plain pattern
list has none of the looked-up attributes.  The wrapper case is handled
by the full attribute protocol in `DecoratedPatterns.getattr` and is
never reached through it. -/
def PyObj.modAttr : PyObj V → String → Except PyErr (AttrVal V)
  | .mod ups attrs, name =>
      if name = "urlpatterns" then
        match ups with
        | some ps => .ok (.patterns ps)
        | none => .error .attributeError
      else
        match List.lookup name attrs with
        | some v => .ok (.other v)
        | none => .error .attributeError
  | .plist _, _ => .error .attributeError
  | .wrapper _, _ => .error .attributeError

/-- Names that attribute lookup finds on the wrapper itself (its class
dict and instance dict), which therefore never reach `__getattr__`:
the two properties, the three instance attributes set by `__init__`, and
the three methods.  Dunder names implicitly looked up by the interpreter
are outside the scope of this model. -/
def wrapperAttrNames : List String :=
  ["urlpatterns", "urlconf_module", "urlconf_name", "decorators",
   "_urlconf_module", "decorate_pattern", "_get_urlpatterns",
   "_get_urlconf_module"]

/-- Full attribute lookup on a wrapper, following Python's protocol for
this class: the two properties run their getters, the instance and class
attributes answer directly, and every other name falls through to
`__getattr__`, which delegates to `getattr(self.urlconf_module, name)` —
resolving (and memoizing) the module first, then looking the name up on
it; on a nested wrapper the delegation re-enters this full protocol. -/
def DecoratedPatterns.getattr (env : ImportEnv V) :
    DecoratedPatterns V → Nat → String →
      Except PyErr (AttrVal V × DecoratedPatterns V × Nat)
  | w, c, name =>
      if name = "urlpatterns" then
        match DecoratedPatterns.urlpatterns env w c with
        | .ok (ps, w2, c2) => .ok (.patterns ps, w2, c2)
        | .error e => .error e
      else if name = "urlconf_module" then
        match DecoratedPatterns.resolveModule env w with
        | .ok (m, w2) => .ok (.objval m, w2, c)
        | .error e => .error e
      else if name = "urlconf_name" then .ok (.confref w.urlconf_name, w, c)
      else if name = "decorators" then .ok (.decs w.decorators, w, c)
      else if name = "_urlconf_module" then .ok (.cacheval w.cache, w, c)
      else if name = "decorate_pattern" ∨ name = "_get_urlpatterns" ∨
          name = "_get_urlconf_module" then .ok (.method name, w, c)
      else
        match w with
        | .mk i u ds (some (.wrapper wi)) =>
            match DecoratedPatterns.getattr env wi c name with
            | .ok (v, wi2, c2) => .ok (v, .mk i u ds (some (.wrapper wi2)), c2)
            | .error e => .error e
        | .mk i u ds (some m) =>
            match PyObj.modAttr m name with
            | .ok v => .ok (v, .mk i u ds (some m), c)
            | .error e => .error e
        | .mk i u ds none =>
            match u with
            | .strRef s =>
                match env s with
                | some (ups, attrs) =>
                    match PyObj.modAttr (.mod ups attrs) name with
                    | .ok v => .ok (v, .mk i u ds (some (.mod ups attrs)), c)
                    | .error e => .error e
                | none => .error .importError
            | .obj _ => .error .typeError

/-- The include target argument of `decorator_include`: a non-tuple
urlconf reference, or a tuple, kept as its first element (the urlconf)
plus the list of its remaining elements (strings or None), so that a
tuple of any length can be expressed. -/
inductive IncludeArg (V : Type) : Type where
  | plain : UrlconfRef V → IncludeArg V
  | tup : UrlconfRef V → List (Option String) → IncludeArg V

/-- The function `decorator_include(decorators, arg, namespace=None,
app_name=None)`.  It validates app_name-without-namespace against the
explicit arguments, unpacks a tuple arg as a 2-tuple, retries a failed
2-unpack as a legacy 3-tuple unless a truthy explicit namespace was
supplied (in which case ImproperlyConfigured is raised first), constructs
the wrapper, defaults the namespace to the app_name, and returns the
triple; the allocation counter is threaded through. -/
def decorator_include (c : Nat) (d : DecoratorsArg V) (arg : IncludeArg V)
    (ns an : Option String) :
    Except IncludeError
      ((DecoratedPatterns V × Option String × Option String) × Nat) :=
  if pyTruthy an && !pyTruthy ns then .error .valueErrorMustNamespace
  else
    match arg with
    | .plain u =>
        let w := DecoratedPatterns.init c u d
        .ok ((w.1, an, pyOr ns an), w.2)
    | .tup first rest =>
        match rest with
        | [a2] =>
            let w := DecoratedPatterns.init c first d
            .ok ((w.1, a2, pyOr ns a2), w.2)
        | [a2, a3] =>
            if pyTruthy ns then .error .improperlyConfigured
            else
              let w := DecoratedPatterns.init c first d
              .ok ((w.1, a2, pyOr a3 a2), w.2)
        | other =>
            if pyTruthy ns then .error .improperlyConfigured
            else .error (.valueErrorUnpack (other.length + 1))

/-- The namespace value held by the local variable `namespace` just after
argument normalization: the explicit argument, except that a legacy
3-tuple rebinds it to the tuple's third element. -/
def effNs : IncludeArg V → Option String → Option String
  | .tup _ [_, a3], _ => a3
  | _, ns => ns

/-- The urlconf reference that the constructed wrapper is built over:
the arg itself for a non-tuple, the first element for a tuple. -/
def urlconfOf : IncludeArg V → UrlconfRef V
  | .plain u => u
  | .tup first _ => first

/-- Whether a pattern node is a resolver node. -/
def isResolverB : Pattern V → Bool
  | .resolver _ _ _ _ _ => true
  | .leaf _ _ _ _ => false

/-- Number of resolver nodes in a pattern list; equals the number of
wrapper instances one `urlpatterns` access allocates for it. -/
def resolverCount : List (Pattern V) → Nat
  | [] => 0
  | p :: ps => (if isResolverB p then 1 else 0) + resolverCount ps

/-- An include-time configuration error in the sense of the spec: the
explicit app_name-without-namespace ValueError or ImproperlyConfigured
(as opposed to a propagated tuple-unpacking arity ValueError). -/
def isConfigError : IncludeError → Prop := fun e =>
  e = .valueErrorMustNamespace ∨ e = .improperlyConfigured

theorem decorate_pattern_snd (w : DecoratedPatterns V) (c : Nat) (p : Pattern V) :
    (w.decorate_pattern c p).2 = c + (if isResolverB p then 1 else 0) := by
  obtain ⟨i, u, ds, ca⟩ := w
  cases p <;> simp [DecoratedPatterns.decorate_pattern, DecoratedPatterns.init, isResolverB]

theorem decorateList_snd (w : DecoratedPatterns V) (ps : List (Pattern V)) (c : Nat) :
    (decorateList w ps c).2 = c + resolverCount ps := by
  induction ps generalizing c with
  | nil => simp [decorateList, resolverCount]
  | cons p ps ih =>
      simp only [decorateList, resolverCount, ih, decorate_pattern_snd]
      omega

theorem decorateList_length (w : DecoratedPatterns V) (ps : List (Pattern V)) (c : Nat) :
    (decorateList w ps c).1.length = ps.length := by
  induction ps generalizing c with
  | nil => rfl
  | cons p ps ih => simp [decorateList, ih]

theorem decorateList_get (w : DecoratedPatterns V) (ps : List (Pattern V)) (c : Nat)
    (i : Nat) (h : i < ps.length) (h2 : i < (decorateList w ps c).1.length) :
    ((decorateList w ps c).1).get ⟨i, h2⟩ =
      (w.decorate_pattern (c + resolverCount (ps.take i)) (ps.get ⟨i, h⟩)).1 := by
  induction ps generalizing c i with
  | nil => exact absurd h (by simp)
  | cons p ps ih =>
      cases i with
      | zero => simp [decorateList, resolverCount]
      | succ j =>
          have hj : j < ps.length := Nat.lt_of_succ_lt_succ h
          have hj2 : j < (decorateList w ps (w.decorate_pattern c p).2).1.length := by
            rw [decorateList_length]; exact hj
          have := ih (w.decorate_pattern c p).2 j hj hj2
          simp only [decorateList, List.get, List.take, resolverCount, this,
            decorate_pattern_snd]
          congr 2
          omega

theorem resolverCount_take_lt (ps : List (Pattern V)) (i : Nat) (h : i < ps.length)
    (hres : isResolverB (ps.get ⟨i, h⟩) = true) :
    resolverCount (ps.take i) < resolverCount ps := by
  induction ps generalizing i with
  | nil => exact absurd h (by simp)
  | cons p ps ih =>
      cases i with
      | zero =>
          simp only [List.get] at hres
          simp [resolverCount, hres]
      | succ j =>
          have hj : j < ps.length := Nat.lt_of_succ_lt_succ h
          have := ih j hj hres
          simp only [List.take, resolverCount]
          omega

/-- C1: decorate_pattern on a leaf pattern returns a new leaf pattern with
the same regex source, default arguments and name, whose callback is the
decorators folded over the original callback in reverse sequence order;
for decorators [d1, d2] the produced callback is d1 (d2 callback), and for
the empty decorator list the callback is unchanged. -/
theorem spec_C1 {V : Type} (w : DecoratedPatterns V) (oid : Nat) (u : UrlconfRef V)
    (ca : Option (PyObj V)) (c : Nat) (regex : String) (cb : V)
    (args : List (String × String)) (nm : Option String) (d1 d2 : V → V) :
    (w.decorate_pattern c (.leaf regex cb args nm) =
      (.leaf regex (w.decorators.foldr (fun d k => d k) cb) args nm, c))
    ∧ (DecoratedPatterns.decorate_pattern (.mk oid u [d1, d2] ca) c
        (.leaf regex cb args nm) = (.leaf regex (d1 (d2 cb)) args nm, c))
    ∧ (DecoratedPatterns.decorate_pattern (.mk oid u [] ca) c
        (.leaf regex cb args nm) = (.leaf regex cb args nm, c)) := by
  refine ⟨?_, rfl, rfl⟩
  obtain ⟨i, un, ds, cam⟩ := w
  simp [DecoratedPatterns.decorate_pattern, DecoratedPatterns.decorators,
    List.foldl_reverse]

/-- C2: decorate_pattern on a resolver node returns a new resolver node
with the same regex source, default kwargs, app_name and namespace, whose
urlconf is a newly constructed wrapper over the input's nested urlconf
reference carrying the same decorator list; the nested subtree is stored
verbatim (not decorated at this point), and decoration of the subtree
happens when the new wrapper's own urlpatterns is later accessed. -/
theorem spec_C2 {V : Type} (w : DecoratedPatterns V) (c : Nat) (regex : String)
    (u : UrlconfRef V) (kw : List (String × String)) (an nsv : Option String) :
    (w.decorate_pattern c (.resolver regex u kw an nsv) =
      (.resolver regex
        (.obj (.wrapper (DecoratedPatterns.init c u (.iterable w.decorators)).1))
        kw an nsv, c + 1))
    ∧ ((DecoratedPatterns.init c u (.iterable w.decorators)).1.urlconf_name = u)
    ∧ ((DecoratedPatterns.init c u (.iterable w.decorators)).1.decorators =
        w.decorators)
    ∧ (∀ ps : List (Pattern V), u = .obj (.plist ps) →
        (DecoratedPatterns.init c u (.iterable w.decorators)).1.cache =
          some (.plist ps))
    ∧ (∀ (env : ImportEnv V) (ps : List (Pattern V)) (c2 : Nat),
        u = .obj (.plist ps) →
        DecoratedPatterns.urlpatterns env
            (DecoratedPatterns.init c u (.iterable w.decorators)).1 c2 =
          .ok ((decorateList (DecoratedPatterns.init c u (.iterable w.decorators)).1
                  ps c2).1,
               (DecoratedPatterns.init c u (.iterable w.decorators)).1,
               c2 + resolverCount ps)) := by
  obtain ⟨i, un, ds, cam⟩ := w
  refine ⟨rfl, rfl, rfl, ?_, ?_⟩
  · intro ps hu
    subst hu
    rfl
  · intro env ps c2 hu
    subst hu
    simp [DecoratedPatterns.urlpatterns, DecoratedPatterns.init, normalizeDecorators,
      cacheInit, decorateList_snd]

/-- Witness for C2: a wrapper with a single increment decorator over an
inline one-leaf pattern list; the nested wrapper created for it decorates
lazily on urlpatterns access. -/
theorem spec_C2_witness :
    DecoratedPatterns.urlpatterns (V := Nat) (fun _ => none)
      (DecoratedPatterns.init 7 (.obj (.plist [.leaf "x" 5 [] none]))
        (.iterable [fun n => n + 1])).1 9 =
      .ok ([.leaf "x" 6 [] none],
           (DecoratedPatterns.init 7 (.obj (.plist [.leaf "x" 5 [] none]))
             (.iterable [fun n => n + 1])).1, 9) := by
  have h := spec_C2 (V := Nat) (.mk 0 (.strRef "root") [fun n => n + 1] none) 7 "r"
    (.obj (.plist [.leaf "x" 5 [] none])) [] none (some "n")
  have h5 := h.2.2.2.2 (fun _ => none) [.leaf "x" 5 [] none] 9 rfl
  simpa [DecoratedPatterns.decorators, resolverCount, isResolverB,
    decorateList, DecoratedPatterns.decorate_pattern, DecoratedPatterns.init,
    normalizeDecorators, cacheInit] using h5

theorem urlpatterns_mod (env : ImportEnv V) (oid : Nat) (nm : UrlconfRef V)
    (ds : List (V → V)) (src : List (Pattern V)) (attrs : List (String × String))
    (c : Nat) :
    DecoratedPatterns.urlpatterns env (.mk oid nm ds (some (.mod (some src) attrs))) c =
      .ok ((decorateList (.mk oid nm ds (some (.mod (some src) attrs))) src c).1,
           .mk oid nm ds (some (.mod (some src) attrs)), c + resolverCount src) := by
  simp [DecoratedPatterns.urlpatterns, decorateList_snd]

theorem urlpatterns_plist (env : ImportEnv V) (oid : Nat) (nm : UrlconfRef V)
    (ds : List (V → V)) (src : List (Pattern V)) (c : Nat) :
    DecoratedPatterns.urlpatterns env (.mk oid nm ds (some (.plist src))) c =
      .ok ((decorateList (.mk oid nm ds (some (.plist src))) src c).1,
           .mk oid nm ds (some (.plist src)), c + resolverCount src) := by
  simp [DecoratedPatterns.urlpatterns, decorateList_snd]

/-- C3: every access to the wrapper's urlpatterns property re-evaluates:
it reads the resolved module's urlpatterns attribute if present, else
treats the resolved object itself as the iterable of patterns, and maps
decorate_pattern over every element in the original order, with the same
length and no deduplication; consequently two successive accesses
produce, for each nested resolver element, two distinct wrapper instances
(different object ids) that both wrap the same nested urlconf reference
with the same decorator list. -/
theorem spec_C3 {V : Type} (env : ImportEnv V) (oid : Nat) (nm : UrlconfRef V)
    (ds : List (V → V)) (attrs : List (String × String)) (src : List (Pattern V))
    (c : Nat) :
    (DecoratedPatterns.urlpatterns env (.mk oid nm ds (some (.mod (some src) attrs))) c =
      .ok ((decorateList (.mk oid nm ds (some (.mod (some src) attrs))) src c).1,
           .mk oid nm ds (some (.mod (some src) attrs)), c + resolverCount src))
    ∧ (DecoratedPatterns.urlpatterns env (.mk oid nm ds (some (.plist src))) c =
      .ok ((decorateList (.mk oid nm ds (some (.plist src))) src c).1,
           .mk oid nm ds (some (.plist src)), c + resolverCount src))
    ∧ ((decorateList (.mk oid nm ds (some (.mod (some src) attrs))) src c).1.length =
        src.length)
    ∧ (∀ (i : Nat) (h : i < src.length)
         (h2 : i < (decorateList (.mk oid nm ds (some (.mod (some src) attrs))) src c).1.length),
        ((decorateList (.mk oid nm ds (some (.mod (some src) attrs))) src c).1).get ⟨i, h2⟩ =
          ((DecoratedPatterns.mk oid nm ds (some (.mod (some src) attrs))).decorate_pattern
            (c + resolverCount (src.take i)) (src.get ⟨i, h⟩)).1)
    ∧ (∀ (ps1 : List (Pattern V)) (w1 : DecoratedPatterns V) (c1 : Nat)
         (ps2 : List (Pattern V)) (w2 : DecoratedPatterns V) (c2 : Nat),
        DecoratedPatterns.urlpatterns env (.mk oid nm ds (some (.mod (some src) attrs))) c =
          .ok (ps1, w1, c1) →
        DecoratedPatterns.urlpatterns env w1 c1 = .ok (ps2, w2, c2) →
        ∀ (i : Nat) (h : i < src.length) (regex : String) (u : UrlconfRef V)
          (kw : List (String × String)) (an nsv : Option String),
          src.get ⟨i, h⟩ = .resolver regex u kw an nsv →
          ps1.get? i = some (.resolver regex
            (.obj (.wrapper (.mk (c + resolverCount (src.take i)) u ds
              (cacheInit u)))) kw an nsv) ∧
          ps2.get? i = some (.resolver regex
            (.obj (.wrapper (.mk (c + resolverCount src + resolverCount (src.take i))
              u ds (cacheInit u)))) kw an nsv) ∧
          c + resolverCount (src.take i) ≠
            c + resolverCount src + resolverCount (src.take i)) := by
  refine ⟨urlpatterns_mod env oid nm ds src attrs c,
    urlpatterns_plist env oid nm ds src c,
    decorateList_length _ src c, fun i h h2 => decorateList_get _ src c i h h2, ?_⟩
  intro ps1 w1 c1 ps2 w2 c2 ha hb i h regex u kw an nsv hres
  rw [urlpatterns_mod env oid nm ds src attrs c] at ha
  simp only [Except.ok.injEq, Prod.mk.injEq] at ha
  obtain ⟨hps1, hw1, hc1⟩ := ha
  subst hw1
  rw [urlpatterns_mod env oid nm ds src attrs c1] at hb
  simp only [Except.ok.injEq, Prod.mk.injEq] at hb
  obtain ⟨hps2, hw2, hc2⟩ := hb
  subst hps1 hc1 hps2 hc2
  have h1 : i < (decorateList (DecoratedPatterns.mk oid nm ds
      (some (.mod (some src) attrs))) src c).1.length := by
    rw [decorateList_length]; exact h
  have h2 : i < (decorateList (DecoratedPatterns.mk oid nm ds
      (some (.mod (some src) attrs))) src (c + resolverCount src)).1.length := by
    rw [decorateList_length]; exact h
  have hresB : isResolverB (src.get ⟨i, h⟩) = true := by
    rw [hres]; rfl
  have hlt := resolverCount_take_lt src i h hresB
  refine ⟨?_, ?_, by omega⟩
  · rw [List.get?_eq_get h1]
    have hg := decorateList_get (DecoratedPatterns.mk oid nm ds
      (some (.mod (some src) attrs))) src c i h h1
    rw [hres] at hg
    rw [hg]
    rfl
  · rw [List.get?_eq_get h2]
    have hg := decorateList_get (DecoratedPatterns.mk oid nm ds
      (some (.mod (some src) attrs))) src (c + resolverCount src) i h h2
    rw [hres] at hg
    rw [hg]
    rfl

/-- Witness for C3: a one-resolver urlconf accessed twice produces two
nested wrapper instances with distinct object ids (0 on the first access,
1 on the second), both over the same nested reference with the same
(empty) decorator list. -/
theorem spec_C3_witness :
    ([.resolver "r" (.obj (.wrapper (.mk 0 (UrlconfRef.strRef (V := Nat) "sub")
        [] none))) [] none none] : List (Pattern Nat)).get? 0 =
      some (.resolver "r" (.obj (.wrapper (.mk (0 + resolverCount
        (([.resolver "r" (.strRef "sub") [] none none] :
          List (Pattern Nat)).take 0)) (.strRef "sub") []
        (cacheInit (.strRef "sub"))))) [] none none)
    ∧ ([.resolver "r" (.obj (.wrapper (.mk 1 (UrlconfRef.strRef (V := Nat) "sub")
        [] none))) [] none none] : List (Pattern Nat)).get? 0 =
      some (.resolver "r" (.obj (.wrapper (.mk (0 + resolverCount
        ([.resolver "r" (UrlconfRef.strRef (V := Nat) "sub") [] none none]) +
        resolverCount (([.resolver "r" (.strRef "sub") [] none none] :
          List (Pattern Nat)).take 0)) (.strRef "sub") []
        (cacheInit (.strRef "sub"))))) [] none none)
    ∧ 0 + resolverCount (([.resolver "r" (.strRef "sub") [] none none] :
        List (Pattern Nat)).take 0) ≠
      0 + resolverCount ([.resolver "r" (UrlconfRef.strRef (V := Nat) "sub")
        [] none none]) +
        resolverCount (([.resolver "r" (.strRef "sub") [] none none] :
          List (Pattern Nat)).take 0) := by
  exact (spec_C3 (V := Nat) (fun _ => none) 5 (.strRef "m") [] []
    [.resolver "r" (.strRef "sub") [] none none] 0).2.2.2.2
    [.resolver "r" (.obj (.wrapper (.mk 0 (.strRef "sub") [] none))) [] none none]
    (.mk 5 (.strRef "m") []
      (some (.mod (some [.resolver "r" (.strRef "sub") [] none none]) []))) 1
    [.resolver "r" (.obj (.wrapper (.mk 1 (.strRef "sub") [] none))) [] none none]
    (.mk 5 (.strRef "m") []
      (some (.mod (some [.resolver "r" (.strRef "sub") [] none none]) []))) 2
    rfl rfl 0 (by decide) "r" (.strRef "sub") [] none none rfl

/-- The app_name value returned by a non-raising decorator_include call:
the explicit argument for a non-tuple arg, the tuple's second element for
a tuple arg (the last case is unreachable for non-raising calls). -/
def appNameRes : IncludeArg V → Option String → Option String
  | .plain _, an => an
  | .tup _ (a2 :: _), _ => a2
  | .tup _ [], an => an

/-- C4: every non-raising decorator_include call returns the triple
(wrapper, app_name, effective namespace), the wrapper being a
DecoratedPatterns instance over the resolved urlconf with the given
decorators, and the effective namespace being the namespace value in hand
after argument normalization (the explicit argument, or the legacy
3-tuple's third element) if truthy, else the returned app_name; in
particular a plain string arg with no namespace or app_name yields
(wrapper, None, None), and a 2-tuple arg yields the tuple's app_name as
both app_name and namespace. -/
theorem include_ok_shape {V : Type} (c : Nat) (d : DecoratorsArg V)
    (arg : IncludeArg V) (ns an : Option String) (w : DecoratedPatterns V)
    (a n : Option String) (c2 : Nat)
    (hok : decorator_include c d arg ns an = .ok ((w, a, n), c2)) :
    w = (DecoratedPatterns.init c (urlconfOf arg) d).1 ∧ c2 = c + 1 ∧
      a = appNameRes arg an ∧ n = pyOr (effNs arg ns) a := by
  rcases arg with u | ⟨first, rest⟩
  · cases hB : (pyTruthy an && !pyTruthy ns) with
    | true => simp [decorator_include, hB] at hok
    | false =>
        simp only [decorator_include, hB, Bool.false_eq_true, if_false,
          Except.ok.injEq, Prod.mk.injEq] at hok
        obtain ⟨⟨hw, ha, hn⟩, hc2⟩ := hok
        exact ⟨hw.symm, hc2.symm, ha.symm, by rw [← hn, ← ha]; rfl⟩
  · cases hB : (pyTruthy an && !pyTruthy ns) with
    | true => simp [decorator_include, hB] at hok
    | false =>
        rcases rest with _ | ⟨a2, _ | ⟨a3, tail⟩⟩
        · simp only [decorator_include, hB, Bool.false_eq_true, if_false] at hok
          split at hok <;> simp at hok
        · simp only [decorator_include, hB, Bool.false_eq_true, if_false,
            Except.ok.injEq, Prod.mk.injEq] at hok
          obtain ⟨⟨hw, ha, hn⟩, hc2⟩ := hok
          exact ⟨hw.symm, hc2.symm, ha.symm, by rw [← hn, ← ha]; rfl⟩
        · rcases tail with _ | ⟨a4, tail2⟩
          · simp only [decorator_include, hB, Bool.false_eq_true, if_false] at hok
            split at hok
            · simp at hok
            · simp only [Except.ok.injEq, Prod.mk.injEq] at hok
              obtain ⟨⟨hw, ha, hn⟩, hc2⟩ := hok
              exact ⟨hw.symm, hc2.symm, ha.symm, by rw [← hn, ← ha]; rfl⟩
          · simp only [decorator_include, hB, Bool.false_eq_true, if_false] at hok
            split at hok <;> simp at hok

/-- C4: every non-raising decorator_include call returns the triple
(wrapper, app_name, effective namespace), the wrapper being a
DecoratedPatterns instance over the resolved urlconf with the given
decorators, and the effective namespace being the namespace value in hand
after argument normalization (the explicit argument, or the legacy
3-tuple's third element) if truthy, else the returned app_name; in
particular a plain string arg with no namespace or app_name yields
(wrapper, None, None), and a 2-tuple arg yields the tuple's app_name as
both app_name and namespace. -/
theorem spec_C4 {V : Type} (c : Nat) (d : DecoratorsArg V) (arg : IncludeArg V)
    (ns an : Option String) :
    (∀ (w : DecoratedPatterns V) (a n : Option String) (c2 : Nat),
        decorator_include c d arg ns an = .ok ((w, a, n), c2) →
        w = (DecoratedPatterns.init c (urlconfOf arg) d).1 ∧ c2 = c + 1 ∧
          a = appNameRes arg an ∧ n = pyOr (effNs arg ns) a)
    ∧ (decorator_include c d (.plain (.strRef "app.urls")) none none =
        .ok (((DecoratedPatterns.init c (.strRef "app.urls") d).1, none, none),
          c + 1))
    ∧ (decorator_include c d (.tup (.strRef "app.urls") [some "myapp"]) none none =
        .ok (((DecoratedPatterns.init c (.strRef "app.urls") d).1, some "myapp",
          some "myapp"), c + 1)) :=
  ⟨fun w a n c2 hok => include_ok_shape c d arg ns an w a n c2 hok, rfl, rfl⟩

/-- Witness for C4: the non-raising-call characterization applied to the
concrete 2-tuple example. -/
theorem spec_C4_witness :
    (DecoratedPatterns.init 3 (.strRef "app.urls")
        (DecoratorsArg.iterable ([] : List (Nat → Nat)))).1 =
      (DecoratedPatterns.init 3
        (urlconfOf (IncludeArg.tup (.strRef "app.urls") [some "myapp"]))
        (DecoratorsArg.iterable [])).1
    ∧ (4 : Nat) = 3 + 1
    ∧ (some "myapp" : Option String) =
        appNameRes (IncludeArg.tup (V := Nat) (.strRef "app.urls") [some "myapp"]) none
    ∧ (some "myapp" : Option String) =
        pyOr (effNs (IncludeArg.tup (V := Nat) (.strRef "app.urls") [some "myapp"]) none)
          (some "myapp") := by
  exact (spec_C4 3 (.iterable []) (.tup (.strRef "app.urls") [some "myapp"])
    none none).1 _ (some "myapp") (some "myapp") 4 rfl

/-- C6: constructing a wrapper never raises: a non-iterable decorators
argument is normalized to a singleton list, an iterable is stored as is,
a non-string urlconf reference is cached as the resolved object
immediately, a string reference leaves the cache empty; the first
urlconf_module access on a string-reference wrapper imports the module
(memoizing it) or propagates the import failure, and once a wrapper has
resolved its module every later access returns the memoized module
without consulting the import environment at all. -/
theorem spec_C6 {V : Type} (c : Nat) (u : UrlconfRef V) (d : V → V)
    (ds : List (V → V)) (s : String) (o : PyObj V) (env env2 : ImportEnv V) :
    ((DecoratedPatterns.init c u (.single d)).1.decorators = [d])
    ∧ ((DecoratedPatterns.init c u (.iterable ds)).1.decorators = ds)
    ∧ ((DecoratedPatterns.init c (.obj o) (.iterable ds)).1.cache = some o)
    ∧ ((DecoratedPatterns.init c (.strRef s) (.iterable ds)).1.cache = none)
    ∧ (DecoratedPatterns.resolveModule env
        (DecoratedPatterns.init c (.strRef s) (.iterable ds)).1 =
        match env s with
        | some (ups, attrs) =>
            .ok (.mod ups attrs, .mk c (.strRef s) ds (some (.mod ups attrs)))
        | none => .error .importError)
    ∧ (∀ (w wB : DecoratedPatterns V) (m : PyObj V),
        DecoratedPatterns.resolveModule env w = .ok (m, wB) →
        DecoratedPatterns.resolveModule env2 wB = .ok (m, wB)) := by
  refine ⟨rfl, rfl, rfl, rfl, ?_, ?_⟩
  · cases henv : env s with
    | none =>
        simp [DecoratedPatterns.resolveModule, DecoratedPatterns.init,
          normalizeDecorators, cacheInit, henv]
    | some pair =>
        obtain ⟨ups, attrs⟩ := pair
        simp [DecoratedPatterns.resolveModule, DecoratedPatterns.init,
          normalizeDecorators, cacheInit, henv]
  · intro w wB m h
    obtain ⟨i, uu, dds, ca⟩ := w
    cases ca with
    | some m0 =>
        simp only [DecoratedPatterns.resolveModule, Except.ok.injEq,
          Prod.mk.injEq] at h
        obtain ⟨hm, hw⟩ := h
        subst hm
        rw [← hw]
        rfl
    | none =>
        cases uu with
        | strRef s0 =>
            cases henv : env s0 with
            | none => simp [DecoratedPatterns.resolveModule, henv] at h
            | some pair =>
                obtain ⟨ups, attrs⟩ := pair
                simp only [DecoratedPatterns.resolveModule, henv,
                  Except.ok.injEq, Prod.mk.injEq] at h
                obtain ⟨hm, hw⟩ := h
                subst hm
                rw [← hw]
                rfl
        | obj o0 => simp [DecoratedPatterns.resolveModule] at h

/-- Witness for C6: a wrapper that resolved its module under one import
environment answers later accesses identically under an environment where
every import fails. -/
theorem spec_C6_witness :
    DecoratedPatterns.resolveModule (V := Nat) (fun _ => none)
        (.mk 0 (.strRef "x") [] (some (.mod none []))) =
      .ok (.mod none [], .mk 0 (.strRef "x") [] (some (.mod none []))) := by
  exact (spec_C6 0 (.strRef "x") (fun n => n) [] "x" (.mod none [])
    (fun _ => some (none, [])) (fun _ => none)).2.2.2.2.2
    (.mk 0 (.strRef "x") [] none) (.mk 0 (.strRef "x") [] (some (.mod none [])))
    (.mod none []) rfl

/-- Counterexample to C5 as stated: a 1-tuple arg together with a truthy
explicit namespace raises the ImproperlyConfigured configuration error,
although the arg is not a legacy 3-tuple and no app_name was supplied —
a third error situation beyond the two the claim allows. -/
theorem spec_C5_counterexample :
    decorator_include 0 (DecoratorsArg.single (fun n : Nat => n))
        (.tup (.strRef "a") []) (some "ns") none = .error .improperlyConfigured
    ∧ pyTruthy (none : Option String) = false := ⟨rfl, rfl⟩

/-- Whether the include target is a tuple whose 2-tuple unpack fails
(its length, counting the first element, is not 2): exactly the
condition under which decorator_include's except branch runs. -/
def tup2UnpackFails : IncludeArg V → Prop
  | .plain _ => False
  | .tup _ rest => rest.length ≠ 1

/-- C5 (amended): decorator_include raises a configuration error (the
explicit ValueError or ImproperlyConfigured, as opposed to a propagated
tuple-unpacking arity error) exactly when either the explicit app_name is
truthy with a falsy namespace, or the arg is a tuple whose 2-tuple unpack
fails (legacy 3-tuples, but also 1-tuples, 4-tuples, ...) together with a
truthy explicit namespace; supplying both namespace and app_name
explicitly with a plain arg succeeds. -/
theorem spec_C5 {V : Type} (c : Nat) (d : DecoratorsArg V) (arg : IncludeArg V)
    (ns an : Option String) :
    ((∃ e, decorator_include c d arg ns an = .error e ∧ isConfigError e) ↔
      ((pyTruthy an = true ∧ pyTruthy ns = false) ∨
       (tup2UnpackFails arg ∧ pyTruthy ns = true)))
    ∧ (decorator_include c d (.plain (.strRef "app.urls")) (some "ns")
        (some "app") =
        .ok (((DecoratedPatterns.init c (.strRef "app.urls") d).1, some "app",
          some "ns"), c + 1)) := by
  refine ⟨?_, rfl⟩
  cases hA : pyTruthy an <;> cases hN : pyTruthy ns <;>
    rcases arg with u | ⟨first, rest⟩
  · simp [decorator_include, hA, hN, isConfigError, tup2UnpackFails]
  · rcases rest with _ | ⟨a2, _ | ⟨a3, _ | ⟨a4, tail2⟩⟩⟩ <;>
      simp [decorator_include, hA, hN, isConfigError, tup2UnpackFails]
  · simp [decorator_include, hA, hN, isConfigError, tup2UnpackFails]
  · rcases rest with _ | ⟨a2, _ | ⟨a3, _ | ⟨a4, tail2⟩⟩⟩ <;>
      simp [decorator_include, hA, hN, isConfigError, tup2UnpackFails]
  · simp [decorator_include, hA, hN, isConfigError, tup2UnpackFails]
  · rcases rest with _ | ⟨a2, _ | ⟨a3, _ | ⟨a4, tail2⟩⟩⟩ <;>
      simp [decorator_include, hA, hN, isConfigError, tup2UnpackFails]
  · simp [decorator_include, hA, hN, isConfigError, tup2UnpackFails]
  · rcases rest with _ | ⟨a2, _ | ⟨a3, _ | ⟨a4, tail2⟩⟩⟩ <;>
      simp [decorator_include, hA, hN, isConfigError, tup2UnpackFails]

/-- Witness for C5: the amended characterization applied to a concrete
raising call (app_name without namespace). -/
theorem spec_C5_witness :
    (pyTruthy (some "app") = true ∧ pyTruthy (none : Option String) = false) ∨
    (tup2UnpackFails (IncludeArg.plain (UrlconfRef.strRef (V := Nat) "u")) ∧
      pyTruthy (none : Option String) = true) := by
  exact ((spec_C5 (V := Nat) 0 (.single (fun n => n)) (.plain (.strRef "u"))
    none (some "app")).1).mp ⟨.valueErrorMustNamespace, rfl, Or.inl rfl⟩

/-- Counterexample to C7 as stated: "decorators" is an attribute name
other than "urlpatterns", yet looking it up on the wrapper returns the
wrapper's own decorator list, not the underlying module's "decorators"
attribute value. -/
theorem spec_C7_counterexample :
    DecoratedPatterns.getattr (V := Nat) (fun _ => none)
        (.mk 0 (.strRef "m") [] (some (.mod none [("decorators", "modval")]))) 0
        "decorators" =
      .ok (.decs [],
           .mk 0 (.strRef "m") [] (some (.mod none [("decorators", "modval")])), 0)
    ∧ PyObj.modAttr (V := Nat) (.mod none [("decorators", "modval")]) "decorators" =
        .ok (.other "modval")
    ∧ AttrVal.decs ([] : List (Nat → Nat)) ≠ AttrVal.other "modval"
    ∧ "decorators" ≠ "urlpatterns" := by
  refine ⟨rfl, rfl, ?_, by decide⟩
  intro h
  exact AttrVal.noConfusion h

/-- C7 (amended): for every attribute name not found on the wrapper
itself (its two properties, its three instance attributes and its three
methods), attribute lookup on a wrapper with a resolved module is
forwarded to that module and returns exactly the module's attribute
lookup result, so such names cannot distinguish a wrapped urlconf from
the unwrapped module. -/
theorem spec_C7 {V : Type} (env : ImportEnv V) (oid : Nat) (nmref : UrlconfRef V)
    (ds : List (V → V)) (ups : Option (List (Pattern V)))
    (attrs : List (String × String)) (c : Nat) (name : String)
    (hname : name ∉ wrapperAttrNames) :
    DecoratedPatterns.getattr env (.mk oid nmref ds (some (.mod ups attrs))) c
        name =
      match PyObj.modAttr (.mod ups attrs) name with
      | .ok v => .ok (v, .mk oid nmref ds (some (.mod ups attrs)), c)
      | .error e => .error e := by
  simp only [wrapperAttrNames, List.mem_cons, List.not_mem_nil, or_false,
    not_or] at hname
  obtain ⟨h1, h2, h3, h4, h5, h6, h7, h8⟩ := hname
  simp only [DecoratedPatterns.getattr, if_neg h1, if_neg h2, if_neg h3,
    if_neg h4, if_neg h5, if_neg (by simp [h6, h7, h8] :
      ¬(name = "decorate_pattern" ∨ name = "_get_urlpatterns" ∨
        name = "_get_urlconf_module"))]

/-- Witness for C7: delegated lookup of a conventionally named module
attribute (handler404) through the wrapper. -/
theorem spec_C7_witness :
    DecoratedPatterns.getattr (V := Nat) (fun _ => none)
        (.mk 0 (.strRef "m") [] (some (.mod none [("handler404", "x")]))) 0
        "handler404" =
      .ok (.other "x",
           .mk 0 (.strRef "m") [] (some (.mod none [("handler404", "x")])), 0) := by
  have h := spec_C7 (V := Nat) (fun _ => none) 0 (.strRef "m") [] none
    [("handler404", "x")] 0 "handler404" (by decide)
  exact h

/-- Counterexample to C8 as stated: a 4-tuple arg fits neither unpack
arity, yet with a truthy explicit namespace the failure surfaces as the
ImproperlyConfigured configuration error, not as an unpacking error. -/
theorem spec_C8_counterexample :
    decorator_include 0 (DecoratorsArg.single (fun n : Nat => n))
        (.tup (.strRef "a") [some "b", some "c", some "d"]) (some "ns") none =
      .error .improperlyConfigured
    ∧ IncludeError.improperlyConfigured ≠ IncludeError.valueErrorUnpack 4 :=
  ⟨rfl, by decide⟩

/-- C8 (amended): a failed 2-tuple unpack is retried as a legacy 3-tuple
unpack only when the explicit namespace is falsy (the retry then
succeeds for a 3-tuple); when the explicit namespace is truthy, any
failed 2-unpack raises the conflicting-namespace configuration error
before the retry; with a falsy explicit namespace, a tuple fitting
neither arity propagates to the caller as an unpacking error. -/
theorem spec_C8 {V : Type} (c : Nat) (d : DecoratorsArg V) (first : UrlconfRef V)
    (rest : List (Option String)) (ns an : Option String)
    (a2 a3 : Option String) :
    (pyTruthy an = false → pyTruthy ns = false →
      decorator_include c d (.tup first [a2, a3]) ns an =
        .ok (((DecoratedPatterns.init c first d).1, a2, pyOr a3 a2), c + 1))
    ∧ (pyTruthy ns = true → rest.length ≠ 1 →
        decorator_include c d (.tup first rest) ns an =
          .error .improperlyConfigured)
    ∧ (pyTruthy an = false → pyTruthy ns = false → rest.length ≠ 1 →
        rest.length ≠ 2 →
        decorator_include c d (.tup first rest) ns an =
          .error (.valueErrorUnpack (rest.length + 1))) := by
  refine ⟨?_, ?_, ?_⟩
  · intro hA hN
    simp [decorator_include, hA, hN, DecoratedPatterns.init]
  · intro hN hlen
    rcases rest with _ | ⟨b2, _ | ⟨b3, _ | ⟨b4, tail2⟩⟩⟩
    · simp [decorator_include, hN]
    · simp at hlen
    · simp [decorator_include, hN]
    · simp [decorator_include, hN]
  · intro hA hN hlen1 hlen2
    rcases rest with _ | ⟨b2, _ | ⟨b3, _ | ⟨b4, tail2⟩⟩⟩
    · simp [decorator_include, hA, hN]
    · simp at hlen1
    · simp at hlen2
    · simp [decorator_include, hA, hN]

/-- Witness for C8: the legacy 3-tuple retry succeeding with falsy
explicit namespace. -/
theorem spec_C8_witness :
    decorator_include 2 (DecoratorsArg.iterable ([] : List (Nat → Nat)))
        (.tup (.strRef "app.urls") [some "app", some "ns2"]) none none =
      .ok (((DecoratedPatterns.init 2 (.strRef "app.urls") (.iterable [])).1,
        some "app", some "ns2"), 3) := by
  have h := (spec_C8 (V := Nat) 2 (.iterable []) (.strRef "app.urls") [] none
    none (some "app") (some "ns2")).1 rfl rfl
  simpa [pyOr, pyTruthy] using h

/-- C9: for tuple args, a non-raising call silently discards an
explicitly passed app_name argument (the result is the same as if none
had been passed, and the returned app_name is the tuple's second
element), even though the app_name-without-namespace validation was
performed against the explicit argument first. -/
theorem spec_C9 {V : Type} (c : Nat) (d : DecoratorsArg V) (first : UrlconfRef V)
    (rest : List (Option String)) (ns an : Option String) :
    (∀ r, decorator_include c d (.tup first rest) ns an = .ok r →
        decorator_include c d (.tup first rest) ns none = .ok r)
    ∧ (∀ (a2 : Option String) (tail : List (Option String))
         (w : DecoratedPatterns V) (a n : Option String) (c2 : Nat),
        rest = a2 :: tail →
        decorator_include c d (.tup first rest) ns an = .ok ((w, a, n), c2) →
        a = a2)
    ∧ (pyTruthy an = true → pyTruthy ns = false →
        decorator_include c d (.tup first rest) ns an =
          .error .valueErrorMustNamespace) := by
  refine ⟨?_, ?_, ?_⟩
  · intro r hok
    cases hB : (pyTruthy an && !pyTruthy ns) with
    | true =>
        rw [show decorator_include c d (.tup first rest) ns an =
            .error .valueErrorMustNamespace from by
          simp [decorator_include, hB]] at hok
        exact absurd hok (by simp)
    | false =>
        have h0 : (pyTruthy (none : Option String) && !pyTruthy ns) = false := rfl
        have hsame : decorator_include c d (.tup first rest) ns none =
            decorator_include c d (.tup first rest) ns an := by
          simp [decorator_include, h0, hB]
        rw [hsame]
        exact hok
  · intro a2 tail w a n c2 hrest hok
    subst hrest
    have h := (include_ok_shape c d (.tup first (a2 :: tail)) ns an w a n c2
      hok).2.2.1
    simpa [appNameRes] using h
  · intro hA hN
    simp [decorator_include, hA, hN]

/-- Witness for C9: passing an explicit app_name alongside a 2-tuple
leaves the result identical to passing none. -/
theorem spec_C9_witness :
    decorator_include 0 (DecoratorsArg.single (fun n : Nat => n + 1))
        (.tup (.strRef "u") [some "tup"]) (some "ns") none =
      .ok (((DecoratedPatterns.init 0 (.strRef "u")
        (.single (fun n => n + 1))).1, some "tup", some "ns"), 1) := by
  exact (spec_C9 0 (.single (fun n => n + 1)) (.strRef "u") [some "tup"]
    (some "ns") (some "kw")).1 _ rfl

/-- C10: the conflicting-namespace configuration error fires only for a
truthy explicit namespace: a legacy 3-tuple with an explicitly passed
empty-string namespace (or any falsy namespace) raises no error, the
3-tuple unpack proceeds and the tuple's namespace value (when truthy) is
the one returned in the triple; a truthy explicit namespace always
raises the error. -/
theorem spec_C10 {V : Type} (c : Nat) (d : DecoratorsArg V)
    (first : UrlconfRef V) (a2 a3 an : Option String)
    (han : pyTruthy an = false) :
    (decorator_include c d (.tup first [a2, a3]) (some "") an =
      .ok (((DecoratedPatterns.init c first d).1, a2, pyOr a3 a2), c + 1))
    ∧ (∀ ns, pyTruthy ns = false →
        decorator_include c d (.tup first [a2, a3]) ns an =
          .ok (((DecoratedPatterns.init c first d).1, a2, pyOr a3 a2), c + 1))
    ∧ (pyTruthy a3 = true → pyOr a3 a2 = a3)
    ∧ (∀ ns, pyTruthy ns = true →
        decorator_include c d (.tup first [a2, a3]) ns an =
          .error .improperlyConfigured) := by
  refine ⟨?_, ?_, ?_, ?_⟩
  · have h0 : pyTruthy (some "") = false := rfl
    simp [decorator_include, han, h0, DecoratedPatterns.init]
  · intro ns hN
    simp [decorator_include, han, hN, DecoratedPatterns.init]
  · intro hT
    simp [pyOr, hT]
  · intro ns hN
    simp [decorator_include, han, hN]

/-- Witness for C10: a legacy 3-tuple with explicit empty-string
namespace succeeds and returns the tuple's namespace. -/
theorem spec_C10_witness :
    decorator_include 0 (DecoratorsArg.iterable ([] : List (Nat → Nat)))
        (.tup (.strRef "app.urls") [some "app", some "ns2"]) (some "") none =
      .ok (((DecoratedPatterns.init 0 (.strRef "app.urls") (.iterable [])).1,
        some "app", some "ns2"), 1) := by
  have h := (spec_C10 (V := Nat) 0 (.iterable []) (.strRef "app.urls")
    (some "app") (some "ns2") none rfl).1
  simpa [pyOr, pyTruthy] using h

end DecInc
